import Mathlib

/-!
Verification of the baby-meal recommendation system.

The repository ships the React frontend (feedback buttons, nutrition
dashboard, smart-recommendation loading, auth service); those parts are
embedded directly from the JavaScript source.  The backend engine
(SafetyFilter, PreferenceScorer, RetryStrategyTracker, NutrientAggregator,
the smart pipeline around the ExplanationProvider) is not part of the
checked-in sources, so those components are modelled from the
specification, as marked in their doc comments.
-/

/-- An ingredient: immutable reference data with a nutrient vector
(nutrient name to amount) and a set of allergen tags. -/
structure Ingredient where
  id : Nat
  name : String
  nutrients : List (String × ℚ)
  allergen_tags : List String
deriving DecidableEq

/-- One entry of a recipe ingredient list: the (expanded) ingredient and
its quantity fraction used by the nutrient aggregation. -/
structure RecipeIngredient where
  ingredient : Ingredient
  quantity : ℚ
deriving DecidableEq

/-- A recipe: immutable reference data. -/
structure Recipe where
  id : Nat
  name : String
  ingredients : List RecipeIngredient
  min_age_months : Nat
  prep_time_minutes : Nat
  nutrition_score : ℚ
  sugar_per_serving : ℚ
  sodium_per_serving : ℚ
deriving DecidableEq

/-- A baby profile snapshot (ProfileContext). -/
structure Baby where
  id : Nat
  age_in_months : Nat
  allergies : List String
  liked_ingredients : List String
  disliked_ingredients : List String
deriving DecidableEq

/-- A feedback event from the append-only log. -/
structure FeedbackEvent where
  baby_id : Nat
  recipe_id : Nat
  timestamp : Nat
  accepted : Bool
  rating : ℚ
deriving DecidableEq

/-- A recipe conflicts with the baby's allergies when some ingredient's
allergen tags intersect `baby.allergies`. -/
def hasAllergenConflict (baby : Baby) (r : Recipe) : Bool :=
  r.ingredients.any fun ri =>
    ri.ingredient.allergen_tags.any fun t => baby.allergies.contains t

namespace SafetyFilter

/-- Modelled from the spec: the backend SafetyFilter is not among the
checked-in sources.  `filter baby candidates` excludes a recipe when an
ingredient's allergen tags intersect the baby's allergies, when the
recipe's minimum age exceeds the baby's age, or when per-serving sugar or
sodium exceed the age-indexed ceiling table `ceil` (externally loaded
configuration, passed as a parameter). -/
def filter (ceil : Nat → ℚ × ℚ) (baby : Baby) (candidates : List Recipe) :
    List Recipe :=
  candidates.filter fun r =>
    !hasAllergenConflict baby r &&
    decide (r.min_age_months ≤ baby.age_in_months) &&
    decide (r.sugar_per_serving ≤ (ceil baby.age_in_months).1) &&
    decide (r.sodium_per_serving ≤ (ceil baby.age_in_months).2)

end SafetyFilter

/-- Clamp a rational into the unit interval. -/
def clamp01 (q : ℚ) : ℚ := max 0 (min 1 q)

namespace PreferenceScorer

/-- Modelled from the spec: dislike penalty weight, default 0.3. -/
def penaltyWeight : ℚ := 3 / 10

/-- Modelled from the spec: score-mix weights 0.4 / 0.4 / 0.2 for
preference, nutrition and history. -/
def wPref : ℚ := 2 / 5

/-- Nutrition weight of the score mix. -/
def wNutr : ℚ := 2 / 5

/-- History weight of the score mix. -/
def wHist : ℚ := 1 / 5

/-- Fraction of the recipe's ingredients that are in the baby's liked
ingredients. -/
def likedFraction (baby : Baby) (r : Recipe) : ℚ :=
  if r.ingredients.length = 0 then 0
  else
    ((r.ingredients.countP fun ri =>
        baby.liked_ingredients.contains ri.ingredient.name : Nat) : ℚ) /
      (r.ingredients.length : ℚ)

/-- Number of the recipe's ingredients that are in the baby's disliked
ingredients. -/
def dislikedCount (baby : Baby) (r : Recipe) : Nat :=
  r.ingredients.countP fun ri =>
    baby.disliked_ingredients.contains ri.ingredient.name

/-- Modelled from the spec: preference-match sub-score, the liked fraction
minus the penalty for each disliked ingredient, kept in the unit
interval. -/
def preferenceMatch (baby : Baby) (r : Recipe) : ℚ :=
  clamp01 (likedFraction baby r - penaltyWeight * (dislikedCount baby r : ℚ))

/-- The preference sub-score as it would be without the dislike penalty. -/
def preferenceMatchNoPenalty (baby : Baby) (r : Recipe) : ℚ :=
  clamp01 (likedFraction baby r)

/-- Modelled from the spec: the recipe nutrition score normalized into the
unit interval (scores are on a 0 to 100 scale). -/
def nutritionNorm (r : Recipe) : ℚ := clamp01 (r.nutrition_score / 100)

/-- Past ratings of this baby and recipe pair in the feedback log. -/
def pastRatings (baby : Baby) (r : Recipe) (fb : List FeedbackEvent) :
    List ℚ :=
  (fb.filter fun e =>
    decide (e.baby_id = baby.id) && decide (e.recipe_id = r.id)).map
    fun e => e.rating

/-- Modelled from the spec: historical-performance sub-score, the mean of
past ratings (on the 0 to 5 scale) for the pair when any exist, else the
neutral default 0.5. -/
def historyScore (baby : Baby) (r : Recipe) (fb : List FeedbackEvent) : ℚ :=
  let ratings := pastRatings baby r fb
  if ratings.length = 0 then 1 / 2
  else clamp01 (ratings.sum / (ratings.length : ℚ) / 5)

/-- Modelled from the spec: the final score is the weighted sum of the
three sub-scores. -/
def finalScore (baby : Baby) (r : Recipe) (fb : List FeedbackEvent) : ℚ :=
  wPref * preferenceMatch baby r + wNutr * nutritionNorm r +
    wHist * historyScore baby r fb

/-- The final score as it would be without the dislike penalty
(the `original_score` of a RecommendationResult entry). -/
def finalScoreNoPenalty (baby : Baby) (r : Recipe)
    (fb : List FeedbackEvent) : ℚ :=
  wPref * preferenceMatchNoPenalty baby r + wNutr * nutritionNorm r +
    wHist * historyScore baby r fb

/-- The `penalty_applied` flag: true when the preference sub-score was
reduced by a dislike penalty. -/
def penaltyApplied (baby : Baby) (r : Recipe) : Bool :=
  decide (preferenceMatch baby r < preferenceMatchNoPenalty baby r)

end PreferenceScorer

/-- One entry of a RecommendationResult. -/
structure ScoredRec where
  recipe : Recipe
  score : ℚ
  penalty_applied : Bool
  original_score : ℚ
deriving DecidableEq

namespace PreferenceScorer

/-- Score a single recipe into a RecommendationResult entry. -/
def scoreOne (baby : Baby) (fb : List FeedbackEvent) (r : Recipe) :
    ScoredRec :=
  { recipe := r
    score := finalScore baby r fb
    penalty_applied := penaltyApplied baby r
    original_score := finalScoreNoPenalty baby r fb }

/-- Lexicographic ranking key: higher final score first, ties broken by
higher nutrition score, then lower preparation time, then recipe id
ascending. -/
def scoreKey (a : ScoredRec) : ℚ ×ₗ ℚ ×ₗ ℚ ×ₗ ℚ :=
  toLex (-a.score, toLex (-a.recipe.nutrition_score,
    toLex ((a.recipe.prep_time_minutes : ℚ), (a.recipe.id : ℚ))))

/-- The ranking order on scored recipes. -/
def scoreLE (a b : ScoredRec) : Prop := scoreKey a ≤ scoreKey b

instance : DecidableRel scoreLE := fun a b =>
  inferInstanceAs (Decidable (scoreKey a ≤ scoreKey b))

instance : IsTotal ScoredRec scoreLE := ⟨fun _ _ => le_total _ _⟩

instance : IsTrans ScoredRec scoreLE := ⟨fun _ _ _ h h' => le_trans h h'⟩

/-- The tie-break relation the spec describes for equal final scores:
higher nutrition score first, then lower preparation time, then recipe id
ascending. -/
def tieBreak (a b : ScoredRec) : Prop :=
  b.recipe.nutrition_score < a.recipe.nutrition_score ∨
    (a.recipe.nutrition_score = b.recipe.nutrition_score ∧
      (a.recipe.prep_time_minutes < b.recipe.prep_time_minutes ∨
        (a.recipe.prep_time_minutes = b.recipe.prep_time_minutes ∧
          a.recipe.id ≤ b.recipe.id)))

/-- Modelled from the spec: the backend PreferenceScorer is not among the
checked-in sources.  `score baby candidates fb` re-checks the allergy
invariant (defense in depth), scores each surviving recipe and sorts the
results by descending final score with deterministic tie-breaks. -/
def score (baby : Baby) (candidates : List Recipe)
    (fb : List FeedbackEvent) : List ScoredRec :=
  List.insertionSort scoreLE
    ((candidates.filter fun r => !hasAllergenConflict baby r).map
      (scoreOne baby fb))

end PreferenceScorer

namespace RetryStrategyTracker

/-- The per-pair rejection state machine of the RetryStrategyTracker. -/
inductive RetryState where
  | untried
  | tried_once
  | rejected_twice
  | rejected_thrice_plus
deriving DecidableEq

/-- Position of a state along the progression. -/
def stateRank : RetryState → Nat
  | .untried => 0
  | .tried_once => 1
  | .rejected_twice => 2
  | .rejected_thrice_plus => 3

/-- Modelled from the spec: the backend RetryStrategyTracker is not among
the checked-in sources.  A rejection feedback event advances the state by
one, capped at the terminal state; an acceptance resets it to untried. -/
def stepFeedback (s : RetryState) (accepted : Bool) : RetryState :=
  if accepted then .untried
  else
    match s with
    | .untried => .tried_once
    | .tried_once => .rejected_twice
    | .rejected_twice => .rejected_thrice_plus
    | .rejected_thrice_plus => .rejected_thrice_plus

/-- A proposed retry suggestion. -/
inductive RetrySuggestion where
  | alternatePreparation (style : Option String)
  | mixWithLiked (liked : List String)
  | deferAndSubstitute
deriving DecidableEq

/-- Modelled from the spec: the preparation-style rotation picks the next
untried style; after all styles are exhausted it cycles. -/
def styleAt (rotation : List String) (attempts : Nat) : Option String :=
  rotation[attempts % rotation.length]?

/-- Modelled from the spec: the strategy policy keyed by state.  After one
rejection an alternate preparation style from the rotation, after two a
mix with a known-liked ingredient, after three or more a deferral with
substitution; no strategy for an untried pair. -/
def strategyFor (liked : List String) (rotation : List String)
    (attempts : Nat) : RetryState → Option RetrySuggestion
  | .untried => none
  | .tried_once => some (.alternatePreparation (styleAt rotation attempts))
  | .rejected_twice => some (.mixWithLiked liked)
  | .rejected_thrice_plus => some .deferAndSubstitute

end RetryStrategyTracker

/-- Per-nutrient adequacy status. -/
inductive NutrientStatus where
  | deficient
  | adequate
  | excessive
deriving DecidableEq

/-- Status classification exactly as in the dashboard source
(NutritionDashboard.jsx): percentage below 70 is deficient, above 150 is
excessive, otherwise adequate. -/
def statusOf (total target : ℚ) : NutrientStatus :=
  let percentage := total / target * 100
  if percentage < 70 then .deficient
  else if 150 < percentage then .excessive
  else .adequate

/-- JavaScript Math.round semantics: round half toward positive
infinity. -/
def jsRound (q : ℚ) : ℤ := ⌊q + 1 / 2⌋

/-- One row of the dashboard `nutrientData` array
(NutritionDashboard.jsx, lines 80 to 93): actual and target rounded to a
tenth, the percentage rounded to an integer, and the status computed from
the raw percentage. -/
structure NutrientEntry where
  actual : ℚ
  target : ℚ
  percentage : ℤ
  status : NutrientStatus
deriving DecidableEq

/-- Embedding of the `nutrientData` row construction from
NutritionDashboard.jsx. -/
def nutrientEntry (total target : ℚ) : NutrientEntry :=
  { actual := (jsRound (total * 10) : ℚ) / 10
    target := (jsRound (target * 10) : ℚ) / 10
    percentage := jsRound (total / target * 100)
    status := statusOf total target }

/-- The nutrition-analysis response consumed by the dashboard. -/
structure NutritionAnalysis where
  total_meals : Nat
  nutrient_totals : List (String × ℚ)
  nutrient_targets : List (String × ℚ)
  deficiencies : List String
  excesses : List String
deriving DecidableEq

namespace NutrientAggregator

/-- Accepted feedback events inside the rolling window. -/
def acceptedInWindow (events : List FeedbackEvent) (now windowDays : Nat) :
    List FeedbackEvent :=
  events.filter fun e =>
    e.accepted && decide (now - windowDays ≤ e.timestamp) &&
      decide (e.timestamp ≤ now)

/-- Add one amount into a nutrient association list. -/
def addToVec (v : List (String × ℚ)) (key : String) (amount : ℚ) :
    List (String × ℚ) :=
  match v with
  | [] => [(key, amount)]
  | (k, a) :: rest =>
    if k = key then (k, a + amount) :: rest
    else (k, a) :: addToVec rest key amount

/-- Pointwise sum of two nutrient association lists. -/
def addVec (v w : List (String × ℚ)) : List (String × ℚ) :=
  w.foldl (fun acc p => addToVec acc p.1 p.2) v

/-- The nutrient vector of a whole recipe: each ingredient's vector scaled
by its quantity fraction. -/
def recipeNutrientVec (r : Recipe) : List (String × ℚ) :=
  r.ingredients.foldl
    (fun acc ri =>
      addVec acc (ri.ingredient.nutrients.map fun p => (p.1, ri.quantity * p.2)))
    []

/-- Sum of the nutrient vectors of the recipes of the given events, via
the recipe catalog. -/
def sumNutrients (catalog : Nat → Option Recipe)
    (events : List FeedbackEvent) : List (String × ℚ) :=
  events.foldl
    (fun acc e =>
      match catalog e.recipe_id with
      | some r => addVec acc (recipeNutrientVec r)
      | none => acc)
    []

/-- Names from the totals whose status against the window target matches
`st`. -/
def namesWithStatus (totals targets : List (String × ℚ))
    (st : NutrientStatus) : List String :=
  totals.filterMap fun p =>
    match targets.lookup p.1 with
    | some g => if statusOf p.2 g = st then some p.1 else none
    | none => none

/-- Modelled from the spec: the backend NutrientAggregator is not among
the checked-in sources.  `analyze` filters the log to accepted events in
the window; with no such events it returns the explicit no-data result
with `total_meals = 0` and empty per-nutrient data instead of dividing by
zero; otherwise it sums nutrients and classifies them against the daily
targets scaled by the window length. -/
def analyze (catalog : Nat → Option Recipe)
    (dailyTargets : List (String × ℚ)) (events : List FeedbackEvent)
    (now windowDays : Nat) : NutritionAnalysis :=
  let accepted := acceptedInWindow events now windowDays
  if accepted.length = 0 then
    { total_meals := 0
      nutrient_totals := []
      nutrient_targets := []
      deficiencies := []
      excesses := [] }
  else
    let totals := sumNutrients catalog accepted
    let targets := dailyTargets.map fun p => (p.1, p.2 * (windowDays : ℚ))
    { total_meals := accepted.length
      nutrient_totals := totals
      nutrient_targets := targets
      deficiencies := namesWithStatus totals targets .deficient
      excesses := namesWithStatus totals targets .excessive }

end NutrientAggregator

/-- The mutually exclusive render states of the nutrition dashboard. -/
inductive DashboardView where
  | selectBaby
  | loadingView
  | noData
  | report
deriving DecidableEq

/-- Embedding of the branch structure of NutritionDashboard.jsx: no baby
selected, loading, the explicit no-data branch when the analysis is
missing or has `total_meals = 0` (lines 65 to 77), else the populated
report. -/
def renderDashboard (baby : Option Baby) (loading : Bool)
    (analysis : Option NutritionAnalysis) : DashboardView :=
  match baby with
  | none => .selectBaby
  | some _ =>
    if loading then .loadingView
    else
      match analysis with
      | none => .noData
      | some a => if a.total_meals = 0 then .noData else .report

/-- One entry of the smart-recommendation response. -/
structure SmartRec where
  recipe : Recipe
  score : ℚ
  explanation : String
  is_retry : Bool
  penalty_applied : Bool
  original_score : ℚ
deriving DecidableEq

/-- The smart-recommendation response returned to the API layer. -/
structure SmartResponse where
  primary_recommendations : List SmartRec
  overall_explanation : String
deriving DecidableEq

/-- Outcome of a call to the external ExplanationProvider: per-recipe
texts and an overall text, or a timeout or failure. -/
inductive ProviderResult where
  | success (texts : List String) (overall : String)
  | failure (message : String)
deriving DecidableEq

namespace SmartEngine

/-- The templated rule-based fallback explanation used when the provider
fails. -/
def fallbackExplanation : String :=
  "Recommended by the rule-based engine for this baby profile."

/-- The fallback overall explanation. -/
def fallbackOverall : String :=
  "Personalized explanations are temporarily unavailable."

/-- Convert a rule-based entry and an explanation text into a smart
entry. -/
def toSmartRec (s : ScoredRec) (text : String) : SmartRec :=
  { recipe := s.recipe
    score := s.score
    explanation := text
    is_retry := false
    penalty_applied := s.penalty_applied
    original_score := s.original_score }

/-- Modelled from the spec: the explanation step retries once after a
first failure before falling back. -/
def withRetry (first second : ProviderResult) : ProviderResult :=
  match first with
  | .success t o => .success t o
  | .failure _ => second

/-- Modelled from the spec: the smart pipeline around the external
ExplanationProvider is not among the checked-in sources.  On provider
success each rule-based entry is paired with its generated text; on
timeout or failure the same rule-based entries are returned with the
templated fallback explanation, and the request itself still succeeds
(an error value would model a failed request). -/
def smartRecommend (ruleBased : List ScoredRec)
    (provider : ProviderResult) : Except String SmartResponse :=
  match provider with
  | .success texts overall =>
    .ok { primary_recommendations :=
            ruleBased.enum.map fun p =>
              toSmartRec p.2 (texts.getD p.1 fallbackExplanation)
          overall_explanation := overall }
  | .failure _ =>
    .ok { primary_recommendations :=
            ruleBased.map fun s => toSmartRec s fallbackExplanation
          overall_explanation := fallbackOverall }

end SmartEngine

/-- What the App component does after trying to load recommendations:
either it stores a response, or it surfaces an alert. -/
inductive LoadOutcome where
  | setRecs (data : SmartResponse)
  | alertFailure
deriving DecidableEq

/-- Embedding of `loadSmartRecommendations` from the App component
(BabySelector.jsx file, lines 181 to 231): use the smart response when
the smart endpoint succeeds; on its failure fall back to converting the
basic recommendations with a templated overall explanation; only when
both calls fail surface an alert. -/
def loadSmartRecommendations (smart : Except String SmartResponse)
    (basic : Except String (List ScoredRec)) (babyName : String) :
    LoadOutcome :=
  match smart with
  | .ok data => .setRecs data
  | .error _ =>
    match basic with
    | .ok recs =>
      .setRecs
        { primary_recommendations :=
            recs.map fun s =>
              { recipe := s.recipe
                score := s.score
                explanation := "Matched to this baby profile."
                is_retry := false
                penalty_applied := false
                original_score := s.score }
          overall_explanation :=
            "Showing basic recommendations for " ++ babyName ++
              ". Smart features temporarily unavailable." }
    | .error _ => .alertFailure

/-- The payload posted by the frontend feedback buttons
(FeedbackButtons component, `handleFeedback`). -/
structure FeedbackPayload where
  baby_id : Nat
  recipe_id : Nat
  rating : ℚ
  accepted : Bool
  prepared : Bool
  baby_liked : Option Bool
  comments : String
  rejection_reason : Option String
deriving DecidableEq

/-- Embedding of `handleFeedback` from the FeedbackButtons component: the
payload built for a click with the given `accepted` flag and rating. -/
def handleFeedbackPayload (babyId recipeId : Nat) (accepted : Bool)
    (rating : ℚ) : FeedbackPayload :=
  { baby_id := babyId
    recipe_id := recipeId
    rating := rating
    accepted := accepted
    prepared := accepted
    baby_liked := if accepted then some true else none
    comments := if accepted then "Accepted via UI" else "Rejected via UI"
    rejection_reason := if accepted then none else some ("baby_refused") }

/-- The three feedback-button invocations of the component: love it
(accepted, rating 5), ok (accepted, rating 3.5), and do not like
(rejected, rating 2). -/
def feedbackButtonCalls : List (Bool × ℚ) :=
  [(true, 5), (true, 7 / 2), (false, 2)]

/-- The browser localStorage slice used by the auth service: the stored
token and the stored user record. -/
structure LocalStore where
  token : Option String
  user : Option String
deriving DecidableEq

namespace AuthService

/-- Embedding of `logout` from auth.js: remove both stored keys. -/
def logout (_s : LocalStore) : LocalStore := { token := none, user := none }

/-- A server reply to the auth-me request: either user data, or any
failure (network error, invalid token, server error). -/
inductive ServerReply where
  | success (userData : String)
  | failure (message : String)
deriving DecidableEq

/-- Embedding of `getCurrentUser` from auth.js (lines 93 to 110).  The
whole body sits inside a try/catch whose catch clause logs out and
returns null, so an uncaught exception (which would be an `error` value
here) is impossible.  The result carries the returned value, the
localStorage state afterwards, and whether the server was contacted. -/
def getCurrentUser (store : LocalStore) (server : String → ServerReply) :
    Except String (Option String × LocalStore × Bool) :=
  match store.token with
  | none => .ok (none, store, false)
  | some tok =>
    match server tok with
    | .success u => .ok (some u, store, true)
    | .failure _ => .ok (none, logout store, true)

end AuthService

theorem clamp01_nonneg (q : ℚ) : 0 ≤ clamp01 q := le_max_left 0 _

theorem clamp01_le_one (q : ℚ) : clamp01 q ≤ 1 :=
  max_le (by norm_num) (min_le_left _ _)

theorem clamp01_mono {a b : ℚ} (h : a ≤ b) : clamp01 a ≤ clamp01 b :=
  max_le_max le_rfl (min_le_min le_rfl h)

theorem historyScore_nonneg (baby : Baby) (r : Recipe)
    (fb : List FeedbackEvent) : 0 ≤ PreferenceScorer.historyScore baby r fb := by
  unfold PreferenceScorer.historyScore
  dsimp only
  split
  · norm_num
  · exact clamp01_nonneg _

/-- Members of the ranked scorer output are exactly the scored entries of
the allergy-safe candidates. -/
theorem mem_score_iff (baby : Baby) (candidates : List Recipe)
    (fb : List FeedbackEvent) (s : ScoredRec) :
    s ∈ PreferenceScorer.score baby candidates fb ↔
      ∃ r ∈ candidates, hasAllergenConflict baby r = false ∧
        s = PreferenceScorer.scoreOne baby fb r := by
  unfold PreferenceScorer.score
  rw [(List.perm_insertionSort _ _).mem_iff, List.mem_map]
  constructor
  · rintro ⟨r, hr, rfl⟩
    rcases List.mem_filter.mp hr with ⟨hmem, hcond⟩
    exact ⟨r, hmem, by simpa using hcond, rfl⟩
  · rintro ⟨r, hmem, hcond, rfl⟩
    exact ⟨r, List.mem_filter.mpr ⟨hmem, by simpa using hcond⟩, rfl⟩

/-- C1: a recipe whose ingredients intersect the baby's allergies appears
neither in the SafetyFilter output for any candidate set nor in any
scored output of the PreferenceScorer, even when the scoring stage is
invoked on unfiltered candidates. -/
theorem c1_allergen_never_recommended (ceil : Nat → ℚ × ℚ) (baby : Baby)
    (candidates : List Recipe) (fb : List FeedbackEvent) (r : Recipe)
    (h : hasAllergenConflict baby r = true) :
    r ∉ SafetyFilter.filter ceil baby candidates ∧
      ∀ s ∈ PreferenceScorer.score baby candidates fb, s.recipe ≠ r := by
  constructor
  · intro hmem
    rcases List.mem_filter.mp hmem with ⟨_, hcond⟩
    simp [h] at hcond
  · intro s hs heq
    rcases (mem_score_iff baby candidates fb s).mp hs with ⟨r', _, hsafe, rfl⟩
    have : r' = r := heq
    rw [this] at hsafe
    rw [h] at hsafe
    exact Bool.true_eq_false.mp hsafe

/-- Peanut-containing ingredient used by the concrete scenarios. -/
def wPeanutButter : Ingredient :=
  { id := 1, name := "peanut_butter", nutrients := [("protein_g", 25)],
    allergen_tags := ["peanut"] }

/-- Recipe containing peanut butter. -/
def wRecipeA : Recipe :=
  { id := 1, name := "peanut toast", ingredients := [⟨wPeanutButter, 1⟩],
    min_age_months := 6, prep_time_minutes := 5, nutrition_score := 50,
    sugar_per_serving := 0, sodium_per_serving := 0 }

/-- A baby allergic to peanuts. -/
def wBabyAllergic : Baby :=
  { id := 1, age_in_months := 8, allergies := ["peanut"],
    liked_ingredients := [], disliked_ingredients := [] }

/-- A permissive concrete ceiling table. -/
def wCeil : Nat → ℚ × ℚ := fun _ => (100, 100)

theorem c1_witness :
    wRecipeA ∉ SafetyFilter.filter wCeil wBabyAllergic [wRecipeA] ∧
      PreferenceScorer.score wBabyAllergic [wRecipeA] [] = [] :=
  ⟨(c1_allergen_never_recommended wCeil wBabyAllergic [wRecipeA] [] wRecipeA
      (by decide)).1,
    by decide⟩

theorem preferenceMatch_le_noPenalty (baby : Baby) (r : Recipe) :
    PreferenceScorer.preferenceMatch baby r ≤
      PreferenceScorer.preferenceMatchNoPenalty baby r := by
  apply clamp01_mono
  have : 0 ≤ PreferenceScorer.penaltyWeight *
      ((PreferenceScorer.dislikedCount baby r : Nat) : ℚ) := by
    apply mul_nonneg
    · norm_num [PreferenceScorer.penaltyWeight]
    · positivity
  linarith

/-- C2 (amended): for an allergy-safe candidate recipe, the dislike
penalty never increases the final score, the penalized score never drops
below zero, it stays strictly positive whenever the nutrition sub-score
or the history sub-score is positive (in particular for any untried
recipe, whose history sub-score defaults to 0.5), and the recipe is never
removed from the ranked output. -/
theorem c2_soft_penalty_amended (baby : Baby) (fb : List FeedbackEvent)
    (candidates : List Recipe) (r : Recipe) (hr : r ∈ candidates)
    (hsafe : hasAllergenConflict baby r = false) :
    PreferenceScorer.finalScore baby r fb ≤
        PreferenceScorer.finalScoreNoPenalty baby r fb ∧
      0 ≤ PreferenceScorer.finalScore baby r fb ∧
      ((0 < PreferenceScorer.nutritionNorm r ∨
          0 < PreferenceScorer.historyScore baby r fb) →
        0 < PreferenceScorer.finalScore baby r fb) ∧
      (PreferenceScorer.pastRatings baby r fb = [] →
        0 < PreferenceScorer.finalScore baby r fb) ∧
      PreferenceScorer.scoreOne baby fb r ∈
        PreferenceScorer.score baby candidates fb := by
  have hp0 : 0 ≤ PreferenceScorer.preferenceMatch baby r := clamp01_nonneg _
  have hn0 : 0 ≤ PreferenceScorer.nutritionNorm r := clamp01_nonneg _
  have hh0 := historyScore_nonneg baby r fb
  have hmono := preferenceMatch_le_noPenalty baby r
  refine ⟨?_, ?_, ?_, ?_, ?_⟩
  · unfold PreferenceScorer.finalScore PreferenceScorer.finalScoreNoPenalty
    simp only [PreferenceScorer.wPref, PreferenceScorer.wNutr,
      PreferenceScorer.wHist]
    linarith
  · unfold PreferenceScorer.finalScore
    simp only [PreferenceScorer.wPref, PreferenceScorer.wNutr,
      PreferenceScorer.wHist]
    linarith
  · intro hpos
    unfold PreferenceScorer.finalScore
    simp only [PreferenceScorer.wPref, PreferenceScorer.wNutr,
      PreferenceScorer.wHist]
    rcases hpos with hpos | hpos <;> linarith
  · intro hnofb
    have hhalf : PreferenceScorer.historyScore baby r fb = 1 / 2 := by
      simp only [PreferenceScorer.historyScore, hnofb]
      simp
    unfold PreferenceScorer.finalScore
    rw [hhalf]
    simp only [PreferenceScorer.wPref, PreferenceScorer.wNutr,
      PreferenceScorer.wHist]
    linarith
  · exact (mem_score_iff baby candidates fb _).mpr ⟨r, hr, hsafe, rfl⟩

/-- Banana ingredient of the soft-penalty scenario. -/
def wBanana : Ingredient :=
  { id := 2, name := "banana", nutrients := [("fiber_g", 3)],
    allergen_tags := [] }

/-- Carrot ingredient of the soft-penalty scenario. -/
def wCarrot : Ingredient :=
  { id := 3, name := "carrot", nutrients := [("vitamin_a_mcg", 835)],
    allergen_tags := [] }

/-- Recipe containing both a liked and a disliked ingredient. -/
def wRecipeB : Recipe :=
  { id := 2, name := "banana carrot mash",
    ingredients := [⟨wBanana, 1⟩, ⟨wCarrot, 1⟩],
    min_age_months := 6, prep_time_minutes := 10, nutrition_score := 60,
    sugar_per_serving := 0, sodium_per_serving := 0 }

/-- A baby who likes banana and dislikes carrot. -/
def wBabyBC : Baby :=
  { id := 2, age_in_months := 8, allergies := [],
    liked_ingredients := ["banana"], disliked_ingredients := ["carrot"] }

theorem c2_witness :
    PreferenceScorer.finalScore wBabyBC wRecipeB [] ≤
        PreferenceScorer.finalScoreNoPenalty wBabyBC wRecipeB [] ∧
      0 < PreferenceScorer.finalScore wBabyBC wRecipeB [] ∧
      PreferenceScorer.scoreOne wBabyBC [] wRecipeB ∈
        PreferenceScorer.score wBabyBC [wRecipeB] [] := by
  have h := c2_soft_penalty_amended wBabyBC [] [wRecipeB] wRecipeB
    (by decide) (by decide)
  exact ⟨h.1, h.2.2.2.1 (by decide), h.2.2.2.2⟩

/-- Four plain ingredients of the counterexample recipe. -/
def cIng (n : Nat) (nm : String) : Ingredient :=
  { id := n, name := nm, nutrients := [], allergen_tags := [] }

/-- Counterexample recipe: four ingredients, exactly one liked and one
disliked, and a zero nutrition score. -/
def cRecipeZ : Recipe :=
  { id := 9, name := "degenerate mash",
    ingredients := [⟨cIng 10 "oat", 1⟩, ⟨cIng 11 "kale", 1⟩,
      ⟨cIng 12 "rice", 1⟩, ⟨cIng 13 "pea", 1⟩],
    min_age_months := 6, prep_time_minutes := 10, nutrition_score := 0,
    sugar_per_serving := 0, sodium_per_serving := 0 }

/-- Counterexample baby: likes oat, dislikes kale, no allergies. -/
def cBabyZ : Baby :=
  { id := 3, age_in_months := 8, allergies := [],
    liked_ingredients := ["oat"], disliked_ingredients := ["kale"] }

/-- Counterexample history: the pair was rated once with rating 0. -/
def cFbZ : List FeedbackEvent :=
  [{ baby_id := 3, recipe_id := 9, timestamp := 5, accepted := false,
     rating := 0 }]

theorem cRecipeZ_likedFraction :
    PreferenceScorer.likedFraction cBabyZ cRecipeZ = 1 / 4 := by
  simp +decide [PreferenceScorer.likedFraction, cBabyZ, cRecipeZ, cIng,
    List.countP, List.countP.go]

theorem cRecipeZ_dislikedCount :
    PreferenceScorer.dislikedCount cBabyZ cRecipeZ = 1 := by
  decide

theorem cRecipeZ_preferenceMatch :
    PreferenceScorer.preferenceMatch cBabyZ cRecipeZ = 0 := by
  rw [PreferenceScorer.preferenceMatch, cRecipeZ_likedFraction,
    cRecipeZ_dislikedCount]
  norm_num [clamp01, PreferenceScorer.penaltyWeight]

theorem cRecipeZ_preferenceMatchNoPenalty :
    PreferenceScorer.preferenceMatchNoPenalty cBabyZ cRecipeZ = 1 / 4 := by
  rw [PreferenceScorer.preferenceMatchNoPenalty, cRecipeZ_likedFraction]
  norm_num [clamp01]

theorem cRecipeZ_nutritionNorm :
    PreferenceScorer.nutritionNorm cRecipeZ = 0 := by
  norm_num [PreferenceScorer.nutritionNorm, cRecipeZ, clamp01]

theorem cRecipeZ_pastRatings :
    PreferenceScorer.pastRatings cBabyZ cRecipeZ cFbZ = [0] := by
  decide

theorem cRecipeZ_historyScore :
    PreferenceScorer.historyScore cBabyZ cRecipeZ cFbZ = 0 := by
  simp only [PreferenceScorer.historyScore, cRecipeZ_pastRatings]
  norm_num [clamp01]

theorem c2_counterexample :
    cRecipeZ ∈ SafetyFilter.filter wCeil cBabyZ [cRecipeZ] ∧
      PreferenceScorer.penaltyApplied cBabyZ cRecipeZ = true ∧
      PreferenceScorer.finalScore cBabyZ cRecipeZ cFbZ = 0 ∧
      0 < PreferenceScorer.finalScoreNoPenalty cBabyZ cRecipeZ cFbZ := by
  refine ⟨?_, ?_, ?_, ?_⟩
  · decide
  · rw [PreferenceScorer.penaltyApplied, cRecipeZ_preferenceMatch,
      cRecipeZ_preferenceMatchNoPenalty]
    norm_num
  · rw [PreferenceScorer.finalScore, cRecipeZ_preferenceMatch,
      cRecipeZ_nutritionNorm, cRecipeZ_historyScore]
    norm_num
  · rw [PreferenceScorer.finalScoreNoPenalty,
      cRecipeZ_preferenceMatchNoPenalty, cRecipeZ_nutritionNorm,
      cRecipeZ_historyScore]
    norm_num [PreferenceScorer.wPref, PreferenceScorer.wNutr,
      PreferenceScorer.wHist]

theorem statusOf_eq_deficient {t g : ℚ} :
    statusOf t g = .deficient ↔ t / g * 100 < 70 := by
  unfold statusOf
  dsimp only
  split_ifs with h1 h2 <;> simp [*]

theorem statusOf_eq_excessive {t g : ℚ} :
    statusOf t g = .excessive ↔ 150 < t / g * 100 := by
  unfold statusOf
  dsimp only
  split_ifs with h1 h2
  · constructor
    · intro h
      simp at h
    · intro h
      linarith
  · simp [h2]
  · simp [h2]

theorem statusOf_eq_adequate {t g : ℚ} :
    statusOf t g = .adequate ↔
      70 ≤ t / g * 100 ∧ t / g * 100 ≤ 150 := by
  unfold statusOf
  dsimp only
  split_ifs with h1 h2
  · constructor
    · intro h
      simp at h
    · rintro ⟨ha, _⟩
      linarith
  · constructor
    · intro h
      simp at h
    · rintro ⟨_, hb⟩
      linarith
  · simp only [true_iff]
    exact ⟨not_lt.mp h1, not_lt.mp h2⟩

/-- C3: the dashboard computes `percentage = total / target * 100`, marks
a nutrient deficient exactly below 70 percent, excessive exactly above
150 percent, adequate otherwise, and on 6.5 mg iron against an 11 mg
target reports deficient with the percentage rounding to 59. -/
theorem c3_nutrient_status_thresholds (total target : ℚ) (h : 0 < target) :
    (statusOf total target = .deficient ↔ total / target * 100 < 70) ∧
      (statusOf total target = .excessive ↔ 150 < total / target * 100) ∧
      (statusOf total target = .adequate ↔
        70 ≤ total / target * 100 ∧ total / target * 100 ≤ 150) ∧
      (nutrientEntry total target).status = statusOf total target ∧
      (nutrientEntry total target).percentage =
        jsRound (total / target * 100) ∧
      (nutrientEntry (13 / 2) 11).status = NutrientStatus.deficient ∧
      (nutrientEntry (13 / 2) 11).percentage = 59 := by
  refine ⟨statusOf_eq_deficient, statusOf_eq_excessive,
    statusOf_eq_adequate, rfl, rfl, ?_, ?_⟩
  · show statusOf (13 / 2) 11 = NutrientStatus.deficient
    rw [statusOf_eq_deficient]
    norm_num
  · show jsRound ((13 : ℚ) / 2 / 11 * 100) = 59
    unfold jsRound
    rw [show (13 : ℚ) / 2 / 11 * 100 + 1 / 2 = 1311 / 22 by norm_num]
    rw [Int.floor_eq_iff] <;> norm_num

theorem c3_witness :
    statusOf (13 / 2) 11 = NutrientStatus.deficient ∧
      (nutrientEntry (13 / 2) 11).percentage = 59 := by
  have h := c3_nutrient_status_thresholds (13 / 2) 11 (by norm_num)
  exact ⟨h.1.mpr (by norm_num), h.2.2.2.2.2.2⟩

/-- C4: with zero accepted feedback events in the window the aggregator
returns the explicit no-data result: `total_meals = 0`, no per-nutrient
values, no deficiency or excess names, and no division is performed; the
dashboard renders that result as the no-data view and renders any
analysis with a positive meal count as the populated report, so the two
states are distinguished explicitly. -/
theorem c4_no_data_result (catalog : Nat → Option Recipe)
    (dailyTargets : List (String × ℚ)) (events : List FeedbackEvent)
    (now windowDays : Nat) (b : Baby)
    (h : NutrientAggregator.acceptedInWindow events now windowDays = []) :
    (NutrientAggregator.analyze catalog dailyTargets events now
        windowDays).total_meals = 0 ∧
      (NutrientAggregator.analyze catalog dailyTargets events now
        windowDays).nutrient_totals = [] ∧
      (NutrientAggregator.analyze catalog dailyTargets events now
        windowDays).deficiencies = [] ∧
      (NutrientAggregator.analyze catalog dailyTargets events now
        windowDays).excesses = [] ∧
      renderDashboard (some b) false
        (some (NutrientAggregator.analyze catalog dailyTargets events now
          windowDays)) = .noData ∧
      (∀ a : NutritionAnalysis, a.total_meals ≠ 0 →
        renderDashboard (some b) false (some a) = .report) := by
  have hz : NutrientAggregator.analyze catalog dailyTargets events now
      windowDays =
      { total_meals := 0, nutrient_totals := [], nutrient_targets := []
        deficiencies := [], excesses := [] } := by
    unfold NutrientAggregator.analyze
    rw [h]
    simp
  refine ⟨by rw [hz], by rw [hz], by rw [hz], by rw [hz], ?_, ?_⟩
  · rw [hz]
    simp [renderDashboard]
  · intro a ha
    simp [renderDashboard, ha]

/-- Concrete feedback log with no accepted event inside the window:
one accepted event far before the window and one rejected event inside
it. -/
def cEventsEmptyWindow : List FeedbackEvent :=
  [{ baby_id := 1, recipe_id := 1, timestamp := 0, accepted := true,
     rating := 5 },
   { baby_id := 1, recipe_id := 1, timestamp := 55, accepted := false,
     rating := 2 }]

theorem c4_witness :
    (NutrientAggregator.analyze (fun _ => none) [("iron_mg", 1)]
        cEventsEmptyWindow 60 5).total_meals = 0 ∧
      renderDashboard (some wBabyAllergic) false
        (some (NutrientAggregator.analyze (fun _ => none) [("iron_mg", 1)]
          cEventsEmptyWindow 60 5)) = .noData := by
  have h := c4_no_data_result (fun _ => none) [("iron_mg", 1)]
    cEventsEmptyWindow 60 5 wBabyAllergic (by decide)
  exact ⟨h.1, h.2.2.2.2.1⟩

/-- C5: when the ExplanationProvider fails, the engine still returns the
rule-based recommendation list with the templated fallback explanation on
each entry and the request succeeds; every provider outcome yields a
successful response; and the App component stores any successful response
instead of surfacing an error. -/
theorem c5_provider_failure_fallback (ruleBased : List ScoredRec)
    (msg : String) (basic : Except String (List ScoredRec))
    (name : String) :
    (SmartEngine.smartRecommend ruleBased (.failure msg) =
        .ok { primary_recommendations := ruleBased.map fun s =>
                SmartEngine.toSmartRec s SmartEngine.fallbackExplanation
              overall_explanation := SmartEngine.fallbackOverall }) ∧
      (((ruleBased.map fun s =>
          SmartEngine.toSmartRec s SmartEngine.fallbackExplanation).map
            fun m => m.recipe) = ruleBased.map fun s => s.recipe) ∧
      (∀ provider : ProviderResult, ∃ resp,
        SmartEngine.smartRecommend ruleBased provider = .ok resp) ∧
      (∀ resp : SmartResponse,
        loadSmartRecommendations (.ok resp) basic name = .setRecs resp) := by
  refine ⟨rfl, ?_, ?_, fun resp => rfl⟩
  · simp [SmartEngine.toSmartRec]
  · intro provider
    cases provider <;> exact ⟨_, rfl⟩

theorem scoreLE_tieBreak {a b : ScoredRec}
    (h : PreferenceScorer.scoreLE a b) (heq : a.score = b.score) :
    PreferenceScorer.tieBreak a b := by
  unfold PreferenceScorer.scoreLE PreferenceScorer.scoreKey at h
  rw [Prod.Lex.le_iff] at h
  dsimp only at h
  rcases h with h | ⟨_, h⟩
  · exact absurd (by linarith [neg_lt_neg_iff.mp h]) (lt_irrefl b.score)
  · rw [Prod.Lex.le_iff] at h
    dsimp only at h
    unfold PreferenceScorer.tieBreak
    rcases h with h | ⟨h1, h⟩
    · exact Or.inl (neg_lt_neg_iff.mp h)
    · refine Or.inr ⟨neg_inj.mp h1, ?_⟩
      rw [Prod.Lex.le_iff] at h
      dsimp only at h
      rcases h with h | ⟨h2, h⟩
      · exact Or.inl (Nat.cast_lt.mp h)
      · exact Or.inr ⟨Nat.cast_injective h2, Nat.cast_le.mp h⟩

/-- C6: the scorer output is a deterministic function of its inputs, is a
permutation of the scored allergy-safe candidates (so repeated calls with
identical inputs agree), is sorted by the ranking order, and any two
entries tied on final score are ordered by higher nutrition score, then
lower preparation time, then recipe id ascending. -/
theorem c6_deterministic_ordering (baby : Baby) (candidates : List Recipe)
    (fb : List FeedbackEvent) :
    (PreferenceScorer.score baby candidates fb =
        PreferenceScorer.score baby candidates fb) ∧
      (PreferenceScorer.score baby candidates fb).Perm
        ((candidates.filter fun r => !hasAllergenConflict baby r).map
          (PreferenceScorer.scoreOne baby fb)) ∧
      (PreferenceScorer.score baby candidates fb).Pairwise
        PreferenceScorer.scoreLE ∧
      (PreferenceScorer.score baby candidates fb).Pairwise
        (fun a b => a.score = b.score → PreferenceScorer.tieBreak a b) := by
  refine ⟨rfl, List.perm_insertionSort _ _, List.sorted_insertionSort _ _, ?_⟩
  exact (List.sorted_insertionSort _ _).imp fun hab heq =>
    scoreLE_tieBreak hab heq

/-- C7: while the attempt count stays below the rotation length, no
preparation style is suggested twice for a pair; once the rotation is
exhausted it cycles back periodically. -/
theorem c7_rotation_no_repeat (rotation : List String)
    (h : rotation.Nodup) :
    (∀ i j, i < j → j < rotation.length →
        RetryStrategyTracker.styleAt rotation i ≠
          RetryStrategyTracker.styleAt rotation j) ∧
      (∀ n, RetryStrategyTracker.styleAt rotation (n + rotation.length) =
        RetryStrategyTracker.styleAt rotation n) := by
  constructor
  · intro i j hij hj
    unfold RetryStrategyTracker.styleAt
    rw [Nat.mod_eq_of_lt (lt_trans hij hj), Nat.mod_eq_of_lt hj]
    exact List.nodup_iff_getElem?_ne_getElem?.mp h i j hij hj
  · intro n
    unfold RetryStrategyTracker.styleAt
    rw [Nat.add_mod_right]

theorem c7_witness :
    RetryStrategyTracker.styleAt ["steamed", "roasted", "mixed"] 0 ≠
      RetryStrategyTracker.styleAt ["steamed", "roasted", "mixed"] 1 :=
  (c7_rotation_no_repeat ["steamed", "roasted", "mixed"] (by decide)).1
    0 1 (by decide) (by decide)

/-- C8: each rejection advances the retry state by exactly one rank,
capped at the terminal state; any acceptance resets to untried; two
rejections from untried land on rejected_twice; and the strategy there is
the mix-with-liked-ingredient suggestion, distinct from the
alternate-preparation suggestion of the first rejection. -/
theorem c8_retry_state_machine :
    (∀ s, RetryStrategyTracker.stateRank
        (RetryStrategyTracker.stepFeedback s false) =
      min (RetryStrategyTracker.stateRank s + 1) 3) ∧
      (∀ s, RetryStrategyTracker.stepFeedback s true = .untried) ∧
      (RetryStrategyTracker.stepFeedback .rejected_thrice_plus false =
        .rejected_thrice_plus) ∧
      (RetryStrategyTracker.stepFeedback
        (RetryStrategyTracker.stepFeedback .untried false) false =
        .rejected_twice) ∧
      (∀ liked rotation attempts,
        RetryStrategyTracker.strategyFor liked rotation attempts
            .rejected_twice =
          some (.mixWithLiked liked) ∧
        RetryStrategyTracker.strategyFor liked rotation attempts
            .rejected_twice ≠
          RetryStrategyTracker.strategyFor liked rotation attempts
            .tried_once) := by
  refine ⟨fun s => by cases s <;> rfl, fun s => rfl, rfl, rfl,
    fun liked rotation attempts => ⟨rfl, ?_⟩⟩
  simp [RetryStrategyTracker.strategyFor]

/-- C9: every payload built by a UI feedback-button click has `prepared`
equal to `accepted`; an accepting click carries rating 5 or 3.5,
`baby_liked = true` and no rejection reason; a rejecting click carries
rating 2, a null `baby_liked` and the reason `baby_refused`; hence no
UI-originated payload ever carries any other rejection reason. -/
theorem c9_ui_feedback_payload (b r : Nat) (call : Bool × ℚ)
    (h : call ∈ feedbackButtonCalls) :
    ((handleFeedbackPayload b r call.1 call.2).prepared =
        (handleFeedbackPayload b r call.1 call.2).accepted) ∧
      (call.1 = true →
        ((handleFeedbackPayload b r call.1 call.2).rating = 5 ∨
          (handleFeedbackPayload b r call.1 call.2).rating = 7 / 2) ∧
        (handleFeedbackPayload b r call.1 call.2).baby_liked = some true ∧
        (handleFeedbackPayload b r call.1 call.2).rejection_reason =
          none) ∧
      (call.1 = false →
        (handleFeedbackPayload b r call.1 call.2).rating = 2 ∧
        (handleFeedbackPayload b r call.1 call.2).baby_liked = none ∧
        (handleFeedbackPayload b r call.1 call.2).rejection_reason =
          some ("baby_refused")) ∧
      (∀ reason,
        (handleFeedbackPayload b r call.1 call.2).rejection_reason =
          some reason → reason = "baby_refused") := by
  simp only [feedbackButtonCalls, List.mem_cons, List.not_mem_nil,
    or_false] at h
  rcases h with h | h | h <;> subst h <;>
    simp [handleFeedbackPayload]

theorem c9_witness :
    (handleFeedbackPayload 1 1 false 2).rejection_reason =
        some ("baby_refused") ∧
      (handleFeedbackPayload 1 1 false 2).baby_liked = none :=
  have h := c9_ui_feedback_payload 1 1 (false, 2) (by decide)
  ⟨(h.2.2.1 rfl).2.2, (h.2.2.1 rfl).2.1⟩

/-- C10: `getCurrentUser` never throws: with no stored token it returns
null without contacting the server; on any server failure it clears both
stored keys (via logout) and returns null; and in every case it produces
a value rather than an exception. -/
theorem c10_get_current_user_safe (store : LocalStore)
    (server : String → AuthService.ServerReply) :
    (∃ v, AuthService.getCurrentUser store server = .ok v) ∧
      (store.token = none →
        AuthService.getCurrentUser store server = .ok (none, store, false)) ∧
      (∀ tok msg, store.token = some tok →
        server tok = .failure msg →
        AuthService.getCurrentUser store server =
          .ok (none, { token := none, user := none }, true)) := by
  refine ⟨?_, ?_, ?_⟩
  · rcases htok : store.token with _ | tok
    · exact ⟨(none, store, false),
        by simp [AuthService.getCurrentUser, htok]⟩
    · rcases hs : server tok with u | m
      · exact ⟨(some u, store, true),
          by simp [AuthService.getCurrentUser, htok, hs]⟩
      · exact ⟨(none, AuthService.logout store, true),
          by simp [AuthService.getCurrentUser, htok, hs]⟩
  · intro h
    simp [AuthService.getCurrentUser, h]
  · intro tok msg htok hs
    simp [AuthService.getCurrentUser, htok, hs, AuthService.logout]

/-- Concrete localStorage state with a stored token and user. -/
def cStore : LocalStore := { token := some ("tk"), user := some ("usr") }

/-- A server that fails every request. -/
def cServerDown : String → AuthService.ServerReply :=
  fun _ => .failure ("network error")

theorem c10_witness :
    AuthService.getCurrentUser cStore cServerDown =
      .ok (none, { token := none, user := none }, true) :=
  (c10_get_current_user_safe cStore cServerDown).2.2 "tk" "network error"
    rfl rfl
